import Mathlib

/-!
Verification development for the expense-tracker Telegram bot
(`ucielsola/expense-tracker`).  The definitions below are a shallow
embedding of the LLM pipeline of the backend: prompt management
(`prompt-manager.ts`, `langfuse-client.ts`), intent orchestration
(`orchestrator.ts`), the analytics query pipeline
(`analytics.service.ts`) and the transaction persistence flow
(`expense-tracker.service.ts` together with the bot handler
`handleExpenseMessage`).  External collaborators (the Langfuse prompt
store, the OpenRouter model gateway, the PostgreSQL repositories, the
chat transport) are modelled as explicit environments; fallible
operations return `Except String`; observable effects are recorded in
explicit event traces.
-/

/- ===================================================================
   Section 1: prompt template compilation (PromptManager.compilePrompt)

   The source substitutes, for each `[key, value]` entry of the variable
   map in order, every occurrence of the regex `\{\{\s*key\s*\}\}` in
   the template by `value` (a global, left-to-right, non-rescanning
   `String.replace`).  We model strings as `List Char` internally and
   expose a `String`-level `compilePrompt`.
   =================================================================== -/

/-- Consume the characters of `key` as an exact leading run of `cs`;
return the rest of `cs` on success. -/
def consumeKey : List Char → List Char → Option (List Char)
  | [], cs => some cs
  | _ :: _, [] => none
  | k :: ks, c :: cs => if k = c then consumeKey ks cs else none

/-- Match the placeholder regex `\{\{\s*key\s*\}\}` at the head of `cs`
(the pattern built by `compilePrompt` in `prompt-manager.ts`); return
the characters following the match. -/
def matchPH (key : List Char) : List Char → Option (List Char)
  | '\x7b' :: '\x7b' :: rest =>
    match consumeKey key (rest.dropWhile Char.isWhitespace) with
    | none => none
    | some r2 =>
      match r2.dropWhile Char.isWhitespace with
      | '\x7d' :: '\x7d' :: r4 => some r4
      | _ => none
  | _ => none

theorem consumeKey_length {ks cs r : List Char} (h : consumeKey ks cs = some r) :
    r.length ≤ cs.length := by
  induction ks generalizing cs with
  | nil => simp [consumeKey] at h; simp [h]
  | cons k ks ih =>
    cases cs with
    | nil => simp [consumeKey] at h
    | cons c cs =>
      simp only [consumeKey] at h
      split at h
      · exact Nat.le_succ_of_le (ih h)
      · exact absurd h (by simp)

theorem dropWhile_length_le (p : Char → Bool) (l : List Char) :
    (l.dropWhile p).length ≤ l.length :=
  (List.dropWhile_suffix p).sublist.length_le

theorem matchPH_length {key cs r : List Char} (h : matchPH key cs = some r) :
    r.length < cs.length := by
  rw [matchPH.eq_def] at h
  split at h
  case _ rest =>
    split at h
    case _ => exact absurd h (by simp)
    case _ r2 hk =>
      split at h
      case _ r4 hd =>
        have hr : r4 = r := by simpa using h
        have l1 : (rest.dropWhile Char.isWhitespace).length ≤ rest.length :=
          dropWhile_length_le _ _
        have l2 : r2.length ≤ (rest.dropWhile Char.isWhitespace).length :=
          consumeKey_length hk
        have l3 : (r2.dropWhile Char.isWhitespace).length = r4.length + 2 := by
          rw [hd]; simp
        have l4 : (r2.dropWhile Char.isWhitespace).length ≤ r2.length :=
          dropWhile_length_le _ _
        have l5 : r4.length = r.length := by rw [hr]
        simp only [List.length_cons]
        omega
      case _ => exact absurd h (by simp)
  case _ => exact absurd h (by simp)

/-- Fuel-indexed global replacement of the placeholder for `key` by
`value`: the left-to-right single-pass semantics of JavaScript
`String.replace` with a `g` regex (replacement text is not rescanned).
The fuel only serves to make the recursion structural; `replaceAll`
instantiates it with the length of the input, which is always enough. -/
def replaceGo (key value : List Char) : Nat → List Char → List Char
  | 0, cs => cs
  | _ + 1, [] => []
  | fuel + 1, c :: rest =>
    match matchPH key (c :: rest) with
    | some r => value ++ replaceGo key value fuel r
    | none => c :: replaceGo key value fuel rest

/-- Replace every occurrence of `\{\{\s*key\s*\}\}` in `cs` by `value`. -/
def replaceAll (key value cs : List Char) : List Char :=
  replaceGo key value cs.length cs

theorem replaceGo_adequate (key value : List Char) :
    ∀ fuel₁ fuel₂ cs, cs.length ≤ fuel₁ → cs.length ≤ fuel₂ →
      replaceGo key value fuel₁ cs = replaceGo key value fuel₂ cs := by
  intro fuel₁
  induction fuel₁ with
  | zero =>
    intro fuel₂ cs h1 _
    have : cs = [] := List.length_eq_zero.mp (Nat.le_zero.mp h1)
    subst this
    cases fuel₂ <;> rfl
  | succ f ih =>
    intro fuel₂ cs h1 h2
    cases cs with
    | nil => cases fuel₂ <;> rfl
    | cons c rest =>
      cases fuel₂ with
      | zero => simp at h2
      | succ f2 =>
        simp only [replaceGo]
        rcases hm : matchPH key (c :: rest) with _ | r
        · simp only []
          have hr : rest.length ≤ f := by simp at h1; omega
          have hr2 : rest.length ≤ f2 := by simp at h2; omega
          rw [ih f2 rest hr hr2]
        · simp only []
          have hlt := matchPH_length hm
          have hr : r.length ≤ f := by simp at h1 hlt ⊢; omega
          have hr2 : r.length ≤ f2 := by simp at h2 hlt ⊢; omega
          rw [ih f2 r hr hr2]

theorem replaceAll_nil (key value : List Char) : replaceAll key value [] = [] := rfl

theorem replaceAll_match {key cs r : List Char} (value : List Char)
    (h : matchPH key cs = some r) :
    replaceAll key value cs = value ++ replaceAll key value r := by
  cases cs with
  | nil => simp [matchPH] at h
  | cons c rest =>
    have hlt := matchPH_length h
    simp only [replaceAll, List.length_cons, replaceGo, h]
    congr 1
    exact replaceGo_adequate key value (rest.length) r.length r
      (by simpa using Nat.lt_succ_iff.mp (by simpa using hlt)) (le_refl _)

theorem replaceAll_nomatch {key : List Char} {c : Char} {rest : List Char}
    (value : List Char) (h : matchPH key (c :: rest) = none) :
    replaceAll key value (c :: rest) = c :: replaceAll key value rest := by
  simp only [replaceAll, List.length_cons, replaceGo, h]

/-- Does `cs` contain an occurrence of the placeholder for `key`? -/
def hasPH (key : List Char) : List Char → Bool
  | [] => false
  | c :: rest => (matchPH key (c :: rest)).isSome || hasPH key rest

theorem replaceGo_of_not_hasPH {key : List Char} (value : List Char) :
    ∀ fuel cs, hasPH key cs = false → replaceGo key value fuel cs = cs := by
  intro fuel
  induction fuel with
  | zero => intro cs _; rfl
  | succ f ih =>
    intro cs h
    cases cs with
    | nil => rfl
    | cons c rest =>
      simp only [hasPH, Bool.or_eq_false_iff] at h
      simp only [replaceGo]
      rcases hm : matchPH key (c :: rest) with _ | r
      · simp only []
        rw [ih rest h.2]
      · rw [hm] at h
        simp at h

theorem replaceAll_of_not_hasPH {key cs : List Char} (value : List Char)
    (h : hasPH key cs = false) : replaceAll key value cs = cs :=
  replaceGo_of_not_hasPH value cs.length cs h

/-- PromptManager.compilePrompt: fold the entries of the variable map,
replacing every `\{\{ key \}\}` placeholder by its value, in entry
order. -/
def compilePrompt (template : String) (vars : List (String × String)) : String :=
  vars.foldl
    (fun compiled kv => String.mk (replaceAll kv.1.data kv.2.data compiled.data))
    template

theorem compilePrompt_of_no_keys {template : String} {vars : List (String × String)}
    (h : ∀ kv ∈ vars, hasPH kv.1.data template.data = false) :
    compilePrompt template vars = template := by
  induction vars with
  | nil => rfl
  | cons kv rest ih =>
    simp only [compilePrompt, List.foldl_cons]
    rw [replaceAll_of_not_hasPH kv.2.data (h kv (by simp))]
    have : String.mk template.data = template := rfl
    rw [this]
    exact ih (fun kv' hkv' => h kv' (by simp [hkv']))

/-- C9: `compilePrompt` substitutes every occurrence of a placeholder
`\{\{ key \}\}` (whitespace inside the braces tolerated) by the entry's
string value — characterised by the leftmost-match recurrence of the
global replace — ignores variable entries whose key does not occur in
the template, leaves placeholders with no matching entry unsubstituted,
and applying it again with the same variables is a no-op once no
placeholders of the given keys remain; concretely, a template with two
`caption` placeholders and one `missing` placeholder compiled with
`caption = "x"` has both `caption` occurrences replaced and `missing`
untouched. -/
theorem c9_compilePrompt_substitution :
    (∀ template vars, (∀ kv ∈ vars, hasPH kv.1.data template.data = false) →
        compilePrompt template vars = template) ∧
    (∀ (k v : String) (cs r : List Char), matchPH k.data cs = some r →
        replaceAll k.data v.data cs = v.data ++ replaceAll k.data v.data r) ∧
    (∀ (k v : String) (c : Char) (rest : List Char), matchPH k.data (c :: rest) = none →
        replaceAll k.data v.data (c :: rest) = c :: replaceAll k.data v.data rest) ∧
    (∀ template vars,
        (∀ kv ∈ vars, hasPH kv.1.data (compilePrompt template vars).data = false) →
        compilePrompt (compilePrompt template vars) vars = compilePrompt template vars) ∧
    compilePrompt "A \x7b\x7bcaption\x7d\x7d B \x7b\x7b caption \x7d\x7d C \x7b\x7bmissing\x7d\x7d"
        [("caption", "x")] = "A x B x C \x7b\x7bmissing\x7d\x7d" := by
  refine ⟨fun t vars h => compilePrompt_of_no_keys h,
          fun k v cs r h => replaceAll_match v.data h,
          fun k v c rest h => replaceAll_nomatch v.data h,
          fun t vars h => compilePrompt_of_no_keys h, ?_⟩
  decide

/-- Witness for C9: the first conjunct applied at a concrete template
with no `caption` placeholder. -/
theorem c9_compilePrompt_substitution_witness :
    compilePrompt "no placeholder here" [("caption", "x")] = "no placeholder here" :=
  c9_compilePrompt_substitution.1 "no placeholder here" [("caption", "x")] (by decide)

/- ===================================================================
   Section 2: prompt store (LangfuseClient.getPrompt) and prompt
   resolver (PromptManager.getPromptWithConfig), from
   `langfuse-client.ts` and `prompt-manager.ts`.

   The underlying Langfuse SDK call is an external collaborator: it is
   modelled as an environment function returning one of three outcomes
   (the call threw, the call returned no prompt data, the call returned
   prompt data).  Prompt configs are opaque JSON values, modelled as
   strings.  The in-process cache of the PromptManager is explicit
   state; wall-clock time (`Date.now()`) is an explicit `now : Nat`
   parameter in milliseconds; the number of store fetches performed by
   a call is returned alongside the result.
   =================================================================== -/

/-- Outcome of the raw Langfuse SDK `getPrompt` call. -/
inductive StoreOutcome where
  | throws (msg : String)
  | missing
  | found (prompt : String) (config : Option String)
deriving DecidableEq

/-- The Langfuse prompt store as seen by `LangfuseClient`: the enabled
flag (both credentials present) and the raw SDK fetch. -/
structure LangfuseEnv where
  enabled : Bool
  fetch : String → Option Nat → StoreOutcome

/-- Prompt data returned by `LangfuseClient.getPrompt`. -/
structure PromptData where
  prompt : String
  config : Option String
deriving DecidableEq

/-- LangfuseClient.getPrompt: returns `none` when the client is
disabled, when the SDK call returns no prompt data, or when the SDK
call throws (the error is caught and logged); otherwise returns the
prompt text and config.  It is a total function: it never throws. -/
def langfuseGetPrompt (env : LangfuseEnv) (name : String) (version : Option Nat) :
    Option PromptData :=
  if env.enabled = false then none
  else
    match env.fetch name version with
    | StoreOutcome.throws _ => none
    | StoreOutcome.missing => none
    | StoreOutcome.found p c => some { prompt := p, config := c }

/-- One entry of the PromptManager in-memory cache. -/
structure CacheEntry where
  prompt : String
  config : Option String
  timestamp : Nat
deriving DecidableEq

/-- The PromptManager cache TTL: 5 minutes in milliseconds. -/
def cacheTTL : Nat := 5 * 60 * 1000

/-- The PromptManager state: the prompt cache, a last-write-wins map
keyed by prompt name. -/
structure PMState where
  cache : List (String × CacheEntry)
deriving DecidableEq

/-- Map.get on the cache. -/
def cacheGet (st : PMState) (name : String) : Option CacheEntry :=
  (st.cache.find? (fun kv => kv.1 = name)).map (fun kv => kv.2)

/-- Map.set on the cache (last write wins). -/
def cacheSet (st : PMState) (name : String) (e : CacheEntry) : PMState :=
  { cache := (name, e) :: st.cache.filter (fun kv => kv.1 ≠ name) }

/-- Result of `getPromptWithConfig`. -/
structure PMResult where
  prompt : String
  config : Option String
deriving DecidableEq

/-- The error message thrown when the prompt cannot be resolved. -/
def pmErrorMsg (name : String) : String :=
  "Prompt \x27" ++ name ++ "\x27 not found or invalid in Langfuse. Please configure it correctly."

/-- PromptManager.getPromptWithConfig: check the cache first (a hit is
an entry younger than the TTL); on a miss, fetch from Langfuse when the
store is enabled; a fetched prompt with non-empty text is cached
(config = store's config when present, else the caller-supplied
fallback) and returned; in every other case the call throws the
"not found or invalid" error.  The third component of the result is the
number of store fetches performed. -/
def getPromptWithConfig (env : LangfuseEnv) (st : PMState) (now : Nat)
    (name : String) (fallbackConfig : Option String) (version : Option Nat) :
    Except String PMResult × PMState × Nat :=
  let fetchPath : Except String PMResult × PMState × Nat :=
    if env.enabled then
      match langfuseGetPrompt env name version with
      | some result =>
        -- `if (result && result.prompt)`: the empty string is falsy in JS
        if result.prompt ≠ "" then
          let finalConfig := result.config.orElse (fun _ => fallbackConfig)
          let entry : CacheEntry := { prompt := result.prompt, config := finalConfig, timestamp := now }
          (Except.ok { prompt := result.prompt, config := finalConfig }, cacheSet st name entry, 1)
        else (Except.error (pmErrorMsg name), st, 1)
      | none => (Except.error (pmErrorMsg name), st, 1)
    else (Except.error (pmErrorMsg name), st, 0)
  match cacheGet st name with
  | some cached =>
    if now - cached.timestamp < cacheTTL then
      (Except.ok { prompt := cached.prompt, config := cached.config }, st, 0)
    else fetchPath
  | none => fetchPath

/-- PromptManager.getPrompt: `getPromptWithConfig` without a fallback
config, keeping only the prompt text. -/
def pmGetPrompt (env : LangfuseEnv) (st : PMState) (now : Nat) (name : String)
    (version : Option Nat) : Except String String × PMState × Nat :=
  match getPromptWithConfig env st now name none version with
  | (Except.ok r, st', n) => (Except.ok r.prompt, st', n)
  | (Except.error e, st', n) => (Except.error e, st', n)

theorem cacheGet_cacheSet_self (st : PMState) (name : String) (e : CacheEntry) :
    cacheGet (cacheSet st name e) name = some e := by
  simp [cacheGet, cacheSet, List.find?]

/-- C10: `LangfuseClient.getPrompt` never throws — it is a total
function of its environment — and returns `null` in all three failure
modes: the client is disabled, the SDK call returns no prompt data,
and the SDK call throws (the error is caught); when enabled and the
SDK returns data, it returns the prompt/config pair. -/
theorem c10_langfuse_getPrompt_total :
    ∀ (env : LangfuseEnv) (name : String) (version : Option Nat),
      (env.enabled = false → langfuseGetPrompt env name version = none) ∧
      (∀ m, env.fetch name version = StoreOutcome.throws m →
          langfuseGetPrompt env name version = none) ∧
      (env.fetch name version = StoreOutcome.missing →
          langfuseGetPrompt env name version = none) ∧
      (∀ p c, env.enabled = true → env.fetch name version = StoreOutcome.found p c →
          langfuseGetPrompt env name version = some { prompt := p, config := c }) := by
  intro env name version
  refine ⟨?_, ?_, ?_, ?_⟩
  · intro h; simp [langfuseGetPrompt, h]
  · intro m h; by_cases he : env.enabled <;> simp [langfuseGetPrompt, he, h]
  · intro h; by_cases he : env.enabled <;> simp [langfuseGetPrompt, he, h]
  · intro p c he h; simp [langfuseGetPrompt, he, h]

/-- A concrete enabled store whose SDK call reports no prompt data. -/
def c10Env : LangfuseEnv :=
  { enabled := true, fetch := fun _ _ => StoreOutcome.missing }

/-- Witness for C10: an enabled client whose store has no data for the
requested prompt returns `none` rather than throwing. -/
theorem c10_langfuse_getPrompt_total_witness :
    langfuseGetPrompt c10Env "orchestrator-intent" none = none :=
  (c10_langfuse_getPrompt_total c10Env "orchestrator-intent" none).2.2.1 rfl

/-- C7: on a cache miss, `getPromptWithConfig` fails with the
descriptive "not found or invalid" error whenever the store is
disabled, the store call yields no prompt data (missing or thrown),
or the prompt text is empty (falsy) — there is no fallback prompt
text; on success the returned config is the store's config when
present, else the caller-supplied fallback config. -/
theorem c7_prompt_resolver_fail_closed :
    ∀ (env : LangfuseEnv) (st : PMState) (now : Nat) (name : String)
      (fallback : Option String) (version : Option Nat),
      cacheGet st name = none →
      ((env.enabled = false →
          getPromptWithConfig env st now name fallback version
            = (Except.error (pmErrorMsg name), st, 0)) ∧
       (env.enabled = true → langfuseGetPrompt env name version = none →
          getPromptWithConfig env st now name fallback version
            = (Except.error (pmErrorMsg name), st, 1)) ∧
       (∀ c, env.enabled = true → env.fetch name version = StoreOutcome.found "" c →
          getPromptWithConfig env st now name fallback version
            = (Except.error (pmErrorMsg name), st, 1)) ∧
       (∀ p c, env.enabled = true → env.fetch name version = StoreOutcome.found p c →
          p ≠ "" →
          (getPromptWithConfig env st now name fallback version).1
            = Except.ok { prompt := p, config := c.orElse (fun _ => fallback) })) := by
  intro env st now name fallback version hmiss
  refine ⟨?_, ?_, ?_, ?_⟩
  · intro hdis
    simp [getPromptWithConfig, hmiss, hdis]
  · intro hen hnone
    simp [getPromptWithConfig, hmiss, hen, hnone]
  · intro c hen hf
    simp [getPromptWithConfig, langfuseGetPrompt, hmiss, hen, hf]
  · intro p c hen hf hp
    simp [getPromptWithConfig, langfuseGetPrompt, hmiss, hen, hf, hp]

/-- A concrete disabled store. -/
def c7Env : LangfuseEnv :=
  { enabled := false, fetch := fun _ _ => StoreOutcome.missing }

/-- Witness for C7: with a disabled store and an empty cache, resolving
any prompt fails with the descriptive error. -/
theorem c7_prompt_resolver_fail_closed_witness :
    getPromptWithConfig c7Env { cache := [] } 0 "query-generator" none none
      = (Except.error (pmErrorMsg "query-generator"), { cache := [] }, 0) :=
  (c7_prompt_resolver_fail_closed c7Env { cache := [] } 0 "query-generator" none none
    rfl).1 rfl

/-- C8: after a first successful resolution of a prompt name, a second
resolution of the same name within the 5-minute TTL window returns the
cached prompt/config value (whatever fallback config or version the
second caller supplies), performs no store fetch, and leaves the cache
unchanged — across the two calls exactly one store fetch occurs. -/
theorem c8_prompt_cache_single_fetch :
    ∀ (env : LangfuseEnv) (st : PMState) (t₁ t₂ : Nat) (name : String)
      (fb₁ fb₂ : Option String) (v₁ v₂ : Option Nat) (p : String) (c : Option String),
      cacheGet st name = none →
      env.enabled = true →
      env.fetch name v₁ = StoreOutcome.found p c →
      p ≠ "" →
      t₁ ≤ t₂ →
      t₂ - t₁ < cacheTTL →
      (getPromptWithConfig env st t₁ name fb₁ v₁).2.2 = 1 ∧
      (getPromptWithConfig env st t₁ name fb₁ v₁).1
        = Except.ok { prompt := p, config := c.orElse (fun _ => fb₁) } ∧
      (getPromptWithConfig env (getPromptWithConfig env st t₁ name fb₁ v₁).2.1 t₂
          name fb₂ v₂).2.2 = 0 ∧
      (getPromptWithConfig env (getPromptWithConfig env st t₁ name fb₁ v₁).2.1 t₂
          name fb₂ v₂).1
        = Except.ok { prompt := p, config := c.orElse (fun _ => fb₁) } ∧
      (getPromptWithConfig env (getPromptWithConfig env st t₁ name fb₁ v₁).2.1 t₂
          name fb₂ v₂).2.1
        = (getPromptWithConfig env st t₁ name fb₁ v₁).2.1 := by
  intro env st t₁ t₂ name fb₁ fb₂ v₁ v₂ p c hmiss hen hf hp hle hfresh
  have h1 : getPromptWithConfig env st t₁ name fb₁ v₁
      = (Except.ok { prompt := p, config := c.orElse (fun _ => fb₁) },
         cacheSet st name
           { prompt := p, config := c.orElse (fun _ => fb₁), timestamp := t₁ }, 1) := by
    simp [getPromptWithConfig, langfuseGetPrompt, hmiss, hen, hf, hp]
  have hhit : cacheGet
      (cacheSet st name
        { prompt := p, config := c.orElse (fun _ => fb₁), timestamp := t₁ }) name
      = some { prompt := p, config := c.orElse (fun _ => fb₁), timestamp := t₁ } :=
    cacheGet_cacheSet_self _ _ _
  have h2 : getPromptWithConfig env
      (cacheSet st name
        { prompt := p, config := c.orElse (fun _ => fb₁), timestamp := t₁ }) t₂
      name fb₂ v₂
      = (Except.ok { prompt := p, config := c.orElse (fun _ => fb₁) },
         cacheSet st name
           { prompt := p, config := c.orElse (fun _ => fb₁), timestamp := t₁ }, 0) := by
    simp [getPromptWithConfig, hhit, hfresh]
  rw [h1]
  simp only []
  rw [h2]
  exact ⟨trivial, trivial, rfl, rfl, rfl⟩

/-- A concrete enabled store holding one prompt. -/
def c8Env : LangfuseEnv :=
  { enabled := true, fetch := fun _ _ => StoreOutcome.found "You are a classifier." none }

/-- Witness for C8: resolving the same name at t = 0 and t = 1000
(within the 5-minute TTL) performs one and then zero store fetches and
returns the same value both times. -/
theorem c8_prompt_cache_single_fetch_witness :
    (getPromptWithConfig c8Env { cache := [] } 0 "orchestrator-intent" none none).2.2 = 1 ∧
    (getPromptWithConfig c8Env
        (getPromptWithConfig c8Env { cache := [] } 0 "orchestrator-intent" none none).2.1
        1000 "orchestrator-intent" none none).2.2 = 0 := by
  have h := c8_prompt_cache_single_fetch c8Env { cache := [] } 0 1000
    "orchestrator-intent" none none none none "You are a classifier." none
    rfl rfl rfl (by decide) (by decide) (by decide)
  exact ⟨h.1, h.2.2.1⟩

/- ===================================================================
   Section 3: intent orchestrator (`orchestrator.ts`).

   `analyzeIntent` fetches the `orchestrator-intent` prompt, issues a
   structured-output chat completion, strips markdown code fences from
   the response, parses the JSON and validates it against the strict
   Zod schema; the whole body is wrapped in a try/catch whose catch
   returns a synthetic `unknown` decision.  The prompt fetch, the chat
   call and the JSON.parse/Zod.parse pair are external steps modelled
   as environment functions returning `Except String`.
   =================================================================== -/

/-- Remove every occurrence of the fence opener (three backticks
followed by `json`) together with the run of whitespace after it —
the first regex replace of `stripMarkdownCodeFences`.  Fuel-indexed
for structural recursion; the input length is always enough fuel. -/
def stripJsonFencesGo : Nat → List Char → List Char
  | 0, cs => cs
  | _ + 1, [] => []
  | fuel + 1, '\x60' :: '\x60' :: '\x60' :: 'j' :: 's' :: 'o' :: 'n' :: rest =>
    stripJsonFencesGo fuel (rest.dropWhile Char.isWhitespace)
  | fuel + 1, c :: rest => c :: stripJsonFencesGo fuel rest

/-- Remove a trailing fence (three backticks followed only by
whitespace up to the end of the string) — the second regex replace of
`stripMarkdownCodeFences`. -/
def stripTrailingFence (cs : List Char) : List Char :=
  match cs.reverse.dropWhile Char.isWhitespace with
  | '\x60' :: '\x60' :: '\x60' :: rest => rest.reverse
  | _ => cs

/-- JavaScript `String.prototype.trim`: drop leading and trailing
whitespace. -/
def jsTrim (s : String) : String :=
  String.mk (((s.data.dropWhile Char.isWhitespace).reverse.dropWhile
    Char.isWhitespace).reverse)

/-- JavaScript `String.prototype.toUpperCase`, for the ASCII responses
this pipeline compares. -/
def jsToUpper (s : String) : String :=
  String.mk (s.data.map Char.toUpper)

/-- stripMarkdownCodeFences from `orchestrator.ts`: drop the markdown
fence markup around a JSON response, then trim. -/
def stripMarkdownCodeFences (text : String) : String :=
  jsTrim (String.mk (stripTrailingFence (stripJsonFencesGo text.data.length text.data)))

/-- The 8 intents of the orchestrator schema (Zod enum). -/
inductive Intent where
  | track_expense
  | track_income
  | query_balance
  | query_transactions
  | query_report
  | archive_transaction
  | general_chat
  | unknown
deriving DecidableEq

/-- A schema-validated orchestrator decision (`OrchestratorDecisionSchema`):
intent, confidence in [0,1], optional reasoning. -/
structure OrchestratorDecision where
  intent : Intent
  confidence : ℚ
  reasoning : Option String
deriving DecidableEq

/-- Environment of `Orchestrator.analyzeIntent`: the prompt resolution
(`getPromptWithConfig \x27orchestrator-intent\x27`), the structured chat
completion (system prompt and user message to response text), and the
JSON.parse + Zod validation of the cleaned response. -/
structure OrchEnv where
  promptFetch : Except String PMResult
  chat : String → String → Except String String
  parseDecision : String → Except String OrchestratorDecision

/-- The synthetic decision returned by the catch block. -/
def fallbackDecision : OrchestratorDecision :=
  { intent := Intent.unknown, confidence := 0, reasoning := some "Failed to analyze intent" }

/-- The try block of `analyzeIntent`: prompt fetch, chat call, fence
stripping, parse + validation; any failure propagates. -/
def attemptAnalyzeIntent (env : OrchEnv) (userMessage : String) :
    Except String OrchestratorDecision := do
  let promptData ← env.promptFetch
  let content ← env.chat promptData.prompt userMessage
  env.parseDecision (stripMarkdownCodeFences content)

/-- Orchestrator.analyzeIntent: the try block with a catch that
downgrades every failure to the synthetic `unknown` decision. -/
def analyzeIntent (env : OrchEnv) (userMessage : String) : OrchestratorDecision :=
  match attemptAnalyzeIntent env userMessage with
  | Except.ok d => d
  | Except.error _ => fallbackDecision

/-- C4: `analyzeIntent` never throws — it is a total function — and on
failure of any internal step (prompt fetch, model call, JSON parse or
schema validation) it returns the synthetic decision
`\x7bintent: unknown, confidence: 0, reasoning: "Failed to analyze intent"\x7d`;
when every step succeeds it returns the schema-validated decision. -/
theorem c4_analyzeIntent_never_throws :
    ∀ (env : OrchEnv) (msg : String),
      (∀ e, env.promptFetch = Except.error e →
          analyzeIntent env msg = fallbackDecision) ∧
      (∀ pd e, env.promptFetch = Except.ok pd →
          env.chat pd.prompt msg = Except.error e →
          analyzeIntent env msg = fallbackDecision) ∧
      (∀ pd content e, env.promptFetch = Except.ok pd →
          env.chat pd.prompt msg = Except.ok content →
          env.parseDecision (stripMarkdownCodeFences content) = Except.error e →
          analyzeIntent env msg = fallbackDecision) ∧
      (∀ pd content d, env.promptFetch = Except.ok pd →
          env.chat pd.prompt msg = Except.ok content →
          env.parseDecision (stripMarkdownCodeFences content) = Except.ok d →
          analyzeIntent env msg = d) := by
  intro env msg
  refine ⟨?_, ?_, ?_, ?_⟩
  · intro e he
    simp [analyzeIntent, attemptAnalyzeIntent, he, bind, Except.bind]
  · intro pd e hpd hc
    simp [analyzeIntent, attemptAnalyzeIntent, hpd, hc, bind, Except.bind]
  · intro pd content e hpd hc hparse
    simp [analyzeIntent, attemptAnalyzeIntent, hpd, hc, hparse, bind, Except.bind]
  · intro pd content d hpd hc hparse
    simp [analyzeIntent, attemptAnalyzeIntent, hpd, hc, hparse, bind, Except.bind]

/-- A concrete orchestrator environment whose model call fails. -/
def c4Env : OrchEnv :=
  { promptFetch := Except.ok { prompt := "classify the intent", config := none },
    chat := fun _ _ => Except.error "model unavailable",
    parseDecision := fun _ => Except.error "unreachable" }

/-- Witness for C4: a failing model call yields the synthetic
`unknown`/confidence-0 decision instead of an error. -/
theorem c4_analyzeIntent_never_throws_witness :
    analyzeIntent c4Env "Spent $50 on groceries" = fallbackDecision :=
  (c4_analyzeIntent_never_throws c4Env "Spent $50 on groceries").2.1
    { prompt := "classify the intent", config := none } "model unavailable" rfl rfl

/- ===================================================================
   Section 4: analytics pipeline (`analytics.service.ts`).

   `processNaturalLanguageQuery` generates a structured query, runs the
   two-stage safety validation, executes the query against the
   repositories and formats the result.  The query generator (prompt
   fetch + structured extraction, whose errors the service wraps into a
   single message), the `query-validator` prompt fetch, the validator
   model call and the six repository aggregations are external steps
   modelled as environment functions.  The trace of observable pipeline
   events (prompt fetch, model call, database execution, formatting) is
   returned next to the result.  At runtime `query_type` is a plain
   string (TypeScript types are erased), so it is modelled as `String`;
   the Zod schema restricts generated queries to the six enumerated
   values, but the safety gate re-checks membership in code.
   =================================================================== -/

/-- A generated analytics query (`QueryGeneratorSchema`). -/
structure GeneratedQuery where
  query_type : String
  sort_order : Option String
  limit : Option Nat
  time_period : String
  filters : Option (List (String × String))
  include_archived : Bool
  credit_card_account_id : Option Nat
deriving DecidableEq

/-- The static allow-list of `validateQuery` (stage 1). -/
def allowedQueryTypes : List String :=
  ["rank_accounts_by_expense",
   "total_spending_by_category",
   "count_archived_transactions",
   "count_remaining_installments",
   "total_credit_card_debt",
   "rank_accounts_by_transaction_count"]

/-- Rendering of `JSON.stringify(generatedQuery, null, 2)` used to fill
the `generated_query` prompt variable; the exact layout is irrelevant
to the pipeline logic. -/
def serializeGQ (q : GeneratedQuery) : String :=
  "\x7b \"query_type\": \"" ++ q.query_type ++ "\", \"time_period\": \""
    ++ q.time_period ++ "\", \"include_archived\": "
    ++ (if q.include_archived then "true" else "false") ++ " \x7d"

/-- The fixed user message of the validator model call. -/
def validatorUserMessage : String :=
  "Based on the rules in the system prompt, is the query safe? Respond with a single word: SAFE or DESTRUCTIVE."

/-- Result of one of the six read-only aggregations. -/
inductive ExecResult where
  | rows (entries : List (String × Int))
  | count (n : Nat)
deriving DecidableEq

/-- Observable events of the analytics pipeline. -/
inductive AEvent where
  | promptFetch (name : String)
  | modelCall
  | dbExecute (queryType : String)
  | format
deriving DecidableEq

/-- Environment of the analytics service: the query generator's
structured extraction, the prompt resolver, the validator model call
(user message and system prompt to response text), and the six
repository aggregations (each parameterised by the generated query;
the wall-clock date range of `getDateRange` is absorbed into these
collaborator functions). -/
structure AnalyticsEnv where
  generate : String → Except String GeneratedQuery
  getPrompt : String → Except String String
  processText : String → String → Except String String
  rankAccountsByExpenses : GeneratedQuery → Except String ExecResult
  expensesSummary : Except String ExecResult
  countArchived : Except String Nat
  countRemainingInstallments : Option Nat → Except String Nat
  totalDebt : Option Nat → Except String ExecResult
  rankAccountsByTransactionCount : GeneratedQuery → Except String ExecResult

/-- AnalyticsService.validateQuery: stage 1 is the static allow-list
check on `query_type` (returning false immediately on failure, before
any prompt fetch or model call); stage 2 fetches the `query-validator`
prompt, compiles it with the user request and the serialized query,
asks the model for a one-word verdict, and passes exactly when the
trimmed, upper-cased response equals `"SAFE"`. -/
def validateQuery (env : AnalyticsEnv) (nlq : String) (gq : GeneratedQuery) :
    Except String Bool × List AEvent :=
  if allowedQueryTypes.contains gq.query_type = false then
    (Except.ok false, [])
  else
    match env.getPrompt "query-validator" with
    | Except.error e => (Except.error e, [AEvent.promptFetch "query-validator"])
    | Except.ok promptTemplate =>
      match env.processText validatorUserMessage
          (compilePrompt promptTemplate
            [("user_request", nlq), ("generated_query", serializeGQ gq)]) with
      | Except.error e =>
        (Except.error e, [AEvent.promptFetch "query-validator", AEvent.modelCall])
      | Except.ok content =>
        (Except.ok (jsToUpper (jsTrim content) == "SAFE"),
         [AEvent.promptFetch "query-validator", AEvent.modelCall])

/-- AnalyticsService.executeQuery: dispatch the six allow-listed query
types to their read-only aggregation; any other type raises the
"not supported" error. -/
def executeQuery (env : AnalyticsEnv) (q : GeneratedQuery) : Except String ExecResult :=
  if q.query_type = "rank_accounts_by_expense" then env.rankAccountsByExpenses q
  else if q.query_type = "total_spending_by_category" then env.expensesSummary
  else if q.query_type = "count_archived_transactions" then
    (env.countArchived).map ExecResult.count
  else if q.query_type = "count_remaining_installments" then
    (env.countRemainingInstallments q.credit_card_account_id).map ExecResult.count
  else if q.query_type = "rank_accounts_by_transaction_count" then
    env.rankAccountsByTransactionCount q
  else if q.query_type = "total_credit_card_debt" then
    env.totalDebt q.credit_card_account_id
  else Except.error ("The query type \"" ++ q.query_type ++ "\" is not supported.")

/-- AnalyticsService.formatResponse: render the aggregation result as
a user-facing string (number formatting simplified to `toString`). -/
def formatResponse (q : GeneratedQuery) (results : ExecResult) : String :=
  if q.query_type = "count_archived_transactions" then
    match results with
    | ExecResult.count n =>
      "You have " ++ toString n ++ " archived transaction"
        ++ (if n ≠ 1 then "s" else "") ++ "."
    | ExecResult.rows _ => "You have ? archived transactions."
  else if q.query_type = "count_remaining_installments" then
    match results with
    | ExecResult.count n =>
      "You have " ++ toString n ++ " remaining installment"
        ++ (if n ≠ 1 then "s" else "") ++ "."
    | ExecResult.rows _ => "You have ? remaining installments."
  else if q.query_type = "rank_accounts_by_expense" then
    match results with
    | ExecResult.rows [] => "No expense data found for the specified period."
    | ExecResult.rows entries =>
      "Account Ranking by Expenses:\n\n"
        ++ String.join (entries.map (fun r => r.1 ++ ": " ++ toString r.2 ++ "\n"))
    | ExecResult.count _ => "No expense data found for the specified period."
  else if q.query_type = "total_spending_by_category" then
    match results with
    | ExecResult.rows [] => "No spending data found for the specified period."
    | ExecResult.rows entries =>
      "Spending by Category:\n\n"
        ++ String.join (entries.map (fun r => r.1 ++ ": " ++ toString r.2 ++ "\n"))
    | ExecResult.count _ => "No spending data found for the specified period."
  else if q.query_type = "total_credit_card_debt" then
    match results with
    | ExecResult.rows [] => "No credit card debt found."
    | ExecResult.rows entries =>
      "Credit Card Debt:\n\n"
        ++ String.join (entries.map (fun r => r.1 ++ ": " ++ toString r.2 ++ "\n"))
    | ExecResult.count _ => "No credit card debt found."
  else if q.query_type = "rank_accounts_by_transaction_count" then
    match results with
    | ExecResult.rows [] => "No transaction data found for the specified period."
    | ExecResult.rows entries =>
      "Account Ranking by Transaction Count:\n\n"
        ++ String.join (entries.map (fun r => r.1 ++ ": " ++ toString r.2 ++ "\n"))
    | ExecResult.count _ => "No transaction data found for the specified period."
  else "I was able to fetch the data, but I don\x27t know how to display it for this query type."

/-- AnalyticsService.processNaturalLanguageQuery: generate the
structured query (errors wrapped into a single message), validate it
(a false verdict raises the "deemed unsafe" error), execute it, and
format the response.  The event trace records the validator prompt
fetch and model call, the database execution and the formatting. -/
def processNaturalLanguageQuery (env : AnalyticsEnv) (query : String) :
    Except String String × List AEvent :=
  match env.generate query with
  | Except.error _ =>
    (Except.error "Failed to generate a valid structured query from your request.", [])
  | Except.ok generatedQuery =>
    match validateQuery env query generatedQuery with
    | (Except.error e, evs) => (Except.error e, evs)
    | (Except.ok false, evs) => (Except.error "Query was deemed unsafe to run.", evs)
    | (Except.ok true, evs) =>
      match executeQuery env generatedQuery with
      | Except.error e => (Except.error e, evs ++ [AEvent.dbExecute generatedQuery.query_type])
      | Except.ok results =>
        (Except.ok (formatResponse generatedQuery results),
         evs ++ [AEvent.dbExecute generatedQuery.query_type, AEvent.format])

theorem validateQuery_events (env : AnalyticsEnv) (nlq : String) (gq : GeneratedQuery) :
    ∀ e ∈ (validateQuery env nlq gq).2,
      e = AEvent.promptFetch "query-validator" ∨ e = AEvent.modelCall := by
  intro e he
  unfold validateQuery at he
  split at he
  · simp at he
  · split at he
    · simp at he; simp [he]
    · split at he
      · simp at he; rcases he with h | h <;> simp [h]
      · simp at he; rcases he with h | h <;> simp [h]

theorem validateQuery_ok_true {env : AnalyticsEnv} {nlq : String} {gq : GeneratedQuery}
    (h : (validateQuery env nlq gq).1 = Except.ok true) :
    allowedQueryTypes.contains gq.query_type = true ∧
    ∃ tmpl content,
      env.getPrompt "query-validator" = Except.ok tmpl ∧
      env.processText validatorUserMessage
          (compilePrompt tmpl
            [("user_request", nlq), ("generated_query", serializeGQ gq)])
        = Except.ok content ∧
      jsToUpper (jsTrim content) = "SAFE" := by
  unfold validateQuery at h
  split at h
  case isTrue hna => simp at h
  case isFalse hna =>
    refine ⟨by simpa using hna, ?_⟩
    split at h
    case h_1 e heq => simp at h
    case h_2 tmpl heq =>
      split at h
      case h_1 e2 heq2 => simp at h
      case h_2 content heq2 =>
        simp only [] at h
        exact ⟨tmpl, content, heq, heq2, eq_of_beq (by simpa using h)⟩

/-- C2: for a generated query whose `query_type` is not in the six-item
allow-list, `validateQuery` returns false immediately: no prompt fetch
and no model call occur (the event trace is empty). -/
theorem c2_allowlist_short_circuit :
    ∀ (env : AnalyticsEnv) (nlq : String) (gq : GeneratedQuery),
      allowedQueryTypes.contains gq.query_type = false →
      validateQuery env nlq gq = (Except.ok false, []) := by
  intro env nlq gq h
  unfold validateQuery
  rw [h]
  simp

/-- An analytics environment whose validator model answers with a fixed
response text; every repository aggregation is unused. -/
def fixedResponseEnv (response : String) : AnalyticsEnv :=
  { generate := fun _ => Except.error "unused",
    getPrompt := fun _ => Except.ok "Decide whether the query is safe.",
    processText := fun _ _ => Except.ok response,
    rankAccountsByExpenses := fun _ => Except.error "unused",
    expensesSummary := Except.error "unused",
    countArchived := Except.error "unused",
    countRemainingInstallments := fun _ => Except.error "unused",
    totalDebt := fun _ => Except.error "unused",
    rankAccountsByTransactionCount := fun _ => Except.error "unused" }

/-- An allow-listed generated query. -/
def countArchivedQuery : GeneratedQuery :=
  { query_type := "count_archived_transactions", sort_order := none, limit := none,
    time_period := "all_time", filters := none, include_archived := false,
    credit_card_account_id := none }

/-- A generated query outside the allow-list (scenario D of the spec). -/
def deleteAllQuery : GeneratedQuery :=
  { query_type := "delete_all_transactions", sort_order := none, limit := none,
    time_period := "all_time", filters := none, include_archived := false,
    credit_card_account_id := none }

/-- Witness for C2: a `delete_all_transactions` query is rejected with
an empty event trace. -/
theorem c2_allowlist_short_circuit_witness :
    validateQuery (fixedResponseEnv "SAFE") "Delete everything" deleteAllQuery
      = (Except.ok false, []) :=
  c2_allowlist_short_circuit (fixedResponseEnv "SAFE") "Delete everything" deleteAllQuery
    (by decide)

/-- C3: for an allow-listed query whose prompt fetch and model call
succeed, the safety gate passes exactly when the model's textual
response, trimmed and upper-cased, equals `"SAFE"`; concretely,
`" safe "` passes while `"SAFE."`, `"The query is SAFE"` and
`"DESTRUCTIVE"` all fail closed. -/
theorem c3_model_stage_exact_safe :
    (∀ (env : AnalyticsEnv) (nlq : String) (gq : GeneratedQuery) (tmpl content : String),
        allowedQueryTypes.contains gq.query_type = true →
        env.getPrompt "query-validator" = Except.ok tmpl →
        env.processText validatorUserMessage
            (compilePrompt tmpl
              [("user_request", nlq), ("generated_query", serializeGQ gq)])
          = Except.ok content →
        ((validateQuery env nlq gq).1 = Except.ok true ↔
          jsToUpper (jsTrim content) = "SAFE")) ∧
    (validateQuery (fixedResponseEnv " safe ") "q" countArchivedQuery).1
      = Except.ok true ∧
    (validateQuery (fixedResponseEnv "SAFE.") "q" countArchivedQuery).1
      = Except.ok false ∧
    (validateQuery (fixedResponseEnv "The query is SAFE") "q" countArchivedQuery).1
      = Except.ok false ∧
    (validateQuery (fixedResponseEnv "DESTRUCTIVE") "q" countArchivedQuery).1
      = Except.ok false := by
  refine ⟨?_, rfl, rfl, rfl, rfl⟩
  intro env nlq gq tmpl content hallow hp hc
  unfold validateQuery
  simp only [hallow, hp, hc]
  simp

/-- Witness for C3: an allow-listed query validated against a model
that answers exactly `SAFE` passes the gate. -/
theorem c3_model_stage_exact_safe_witness :
    (validateQuery (fixedResponseEnv "SAFE") "How many archived transactions do I have?"
        countArchivedQuery).1 = Except.ok true :=
  (c3_model_stage_exact_safe.1 (fixedResponseEnv "SAFE")
      "How many archived transactions do I have?" countArchivedQuery
      "Decide whether the query is safe." "SAFE" (by decide) rfl rfl).mpr (by decide)

/-- C1: a generated analytics query is executed against the database
(and its result formatted) only if both safety stages pass — the
`query_type` is allow-listed and the validator model's trimmed,
upper-cased response is exactly `SAFE`; when validation returns false,
`processNaturalLanguageQuery` raises the "deemed unsafe" error and the
event trace contains no database execution and no formatting. -/
theorem c1_execution_gated_by_validation :
    ∀ (env : AnalyticsEnv) (query : String),
      (∀ gq, env.generate query = Except.ok gq →
          (validateQuery env query gq).1 = Except.ok false →
          (processNaturalLanguageQuery env query).1
              = Except.error "Query was deemed unsafe to run." ∧
          ∀ e ∈ (processNaturalLanguageQuery env query).2,
            (∀ qt, e ≠ AEvent.dbExecute qt) ∧ e ≠ AEvent.format) ∧
      (∀ qt, AEvent.dbExecute qt ∈ (processNaturalLanguageQuery env query).2 →
          ∃ gq, env.generate query = Except.ok gq ∧ gq.query_type = qt ∧
            allowedQueryTypes.contains gq.query_type = true ∧
            ∃ tmpl content,
              env.getPrompt "query-validator" = Except.ok tmpl ∧
              env.processText validatorUserMessage
                  (compilePrompt tmpl
                    [("user_request", query), ("generated_query", serializeGQ gq)])
                = Except.ok content ∧
              jsToUpper (jsTrim content) = "SAFE") ∧
      (AEvent.format ∈ (processNaturalLanguageQuery env query).2 →
          ∃ gq results, env.generate query = Except.ok gq ∧
            (validateQuery env query gq).1 = Except.ok true ∧
            executeQuery env gq = Except.ok results ∧
            (processNaturalLanguageQuery env query).1
              = Except.ok (formatResponse gq results)) := by
  intro env query
  refine ⟨?_, ?_, ?_⟩
  · intro gq hgen hval
    rcases hv : validateQuery env query gq with ⟨r, evs⟩
    have hr : r = Except.ok false := by rw [hv] at hval; exact hval
    subst hr
    have hp : processNaturalLanguageQuery env query
        = (Except.error "Query was deemed unsafe to run.", evs) := by
      simp [processNaturalLanguageQuery, hgen, hv]
    rw [hp]
    refine ⟨rfl, ?_⟩
    intro e he
    have := validateQuery_events env query gq e (by rw [hv]; exact he)
    rcases this with h | h <;> subst h <;> exact ⟨fun qt => by simp, by simp⟩
  · intro qt hmem
    rcases hgen : env.generate query with egen | gq
    · simp [processNaturalLanguageQuery, hgen] at hmem
    · rcases hv : validateQuery env query gq with ⟨r, evs⟩
      have hevs : ∀ e ∈ evs,
          e = AEvent.promptFetch "query-validator" ∨ e = AEvent.modelCall := by
        intro e he
        exact validateQuery_events env query gq e (by rw [hv]; exact he)
      rcases r with e | b
      · simp [processNaturalLanguageQuery, hgen, hv] at hmem
        rcases hevs _ hmem with h | h <;> simp at h
      · cases b with
        | false =>
          simp [processNaturalLanguageQuery, hgen, hv] at hmem
          rcases hevs _ hmem with h | h <;> simp at h
        | true =>
          have hvt : (validateQuery env query gq).1 = Except.ok true := by
            rw [hv]
          obtain ⟨hallow, tmpl, content, hp, hc, hsafe⟩ := validateQuery_ok_true hvt
          have hqt : qt = gq.query_type := by
            rcases hex : executeQuery env gq with e2 | results
            · simp [processNaturalLanguageQuery, hgen, hv, hex] at hmem
              rcases hmem with hin | hin
              · rcases hevs _ hin with h | h <;> simp at h
              · exact hin
            · simp [processNaturalLanguageQuery, hgen, hv, hex] at hmem
              rcases hmem with hin | hin
              · rcases hevs _ hin with h | h <;> simp at h
              · exact hin
          exact ⟨gq, rfl, hqt.symm, hallow, tmpl, content, hp, hc, hsafe⟩
  · intro hmem
    rcases hgen : env.generate query with egen | gq
    · simp [processNaturalLanguageQuery, hgen] at hmem
    · rcases hv : validateQuery env query gq with ⟨r, evs⟩
      have hevs : ∀ e ∈ evs,
          e = AEvent.promptFetch "query-validator" ∨ e = AEvent.modelCall := by
        intro e he
        exact validateQuery_events env query gq e (by rw [hv]; exact he)
      rcases r with e | b
      · simp [processNaturalLanguageQuery, hgen, hv] at hmem
        rcases hevs _ hmem with h | h <;> simp at h
      · cases b with
        | false =>
          simp [processNaturalLanguageQuery, hgen, hv] at hmem
          rcases hevs _ hmem with h | h <;> simp at h
        | true =>
          rcases hex : executeQuery env gq with e2 | results
          · simp [processNaturalLanguageQuery, hgen, hv, hex] at hmem
            rcases hevs _ hmem with h | h <;> simp at h
          · refine ⟨gq, results, rfl, by rw [hv], hex, ?_⟩
            simp [processNaturalLanguageQuery, hgen, hv, hex]

/-- An analytics environment for the happy path of scenario C: the
generator yields the archived-transactions count query, the validator
answers `SAFE`, and the repository reports 3 archived transactions. -/
def scenarioCEnv : AnalyticsEnv :=
  { generate := fun _ => Except.ok countArchivedQuery,
    getPrompt := fun _ => Except.ok "Decide whether the query is safe.",
    processText := fun _ _ => Except.ok "SAFE",
    rankAccountsByExpenses := fun _ => Except.error "unused",
    expensesSummary := Except.error "unused",
    countArchived := Except.ok 3,
    countRemainingInstallments := fun _ => Except.error "unused",
    totalDebt := fun _ => Except.error "unused",
    rankAccountsByTransactionCount := fun _ => Except.error "unused" }

/-- Witness for C1: in a run whose trace contains a database execution,
the executed type is allow-listed and the validator answered `SAFE`. -/
theorem c1_execution_gated_by_validation_witness :
    ∃ gq, scenarioCEnv.generate "How many archived transactions do I have?"
        = Except.ok gq ∧
      gq.query_type = "count_archived_transactions" ∧
      allowedQueryTypes.contains gq.query_type = true ∧
      ∃ tmpl content,
        scenarioCEnv.getPrompt "query-validator" = Except.ok tmpl ∧
        scenarioCEnv.processText validatorUserMessage
            (compilePrompt tmpl
              [("user_request", "How many archived transactions do I have?"),
               ("generated_query", serializeGQ gq)])
          = Except.ok content ∧
        jsToUpper (jsTrim content) = "SAFE" :=
  (c1_execution_gated_by_validation scenarioCEnv
      "How many archived transactions do I have?").2.1
    "count_archived_transactions" (by decide)

/- ===================================================================
   Section 5: transaction persistence flow
   (`expense-tracker.service.ts` and the bot handler
   `handleExpenseMessage` in `expense.handler.ts`).

   The repositories are external collaborators, modelled as lookup
   functions in `TrackerEnv`; `uuidv4()` is modelled as the environment
   field `freshUuid`; dates carry a JavaScript-style 0-based month and
   `setMonth(getMonth() + k)` rolls excess months into the year (the
   day-of-month is carried unchanged, as in the source for days that
   exist in the target month).  Monetary amounts are rationals;
   `totalAmount / totalInstallments` is exact rational division
   mirroring the single JS division with no remainder redistribution.
   Observable effects of the handler (replies to the user and
   persistence calls) are recorded in a `BotEvent` trace.
   =================================================================== -/

/-- A persisted account row. -/
structure Account where
  id : Nat
  name : String
  currency : String
  type : String
deriving DecidableEq

/-- A persisted category row. -/
structure Category where
  id : Nat
  name : String
deriving DecidableEq

/-- A calendar date with JavaScript conventions (0-based month). -/
structure SimpleDate where
  year : Int
  month : Nat
  day : Nat
deriving DecidableEq

/-- `date.setMonth(date.getMonth() + k)`: excess months roll into the
year. -/
def addMonths (d : SimpleDate) (k : Nat) : SimpleDate :=
  { d with year := d.year + ((d.month + k) / 12 : Nat), month := (d.month + k) % 12 }

/-- A credit-card purchase installment row (`creditCardRepo.create`). -/
structure CreditCardPurchase where
  creditCardAccountId : Nat
  date : SimpleDate
  description : String
  amount : ℚ
  currency : String
  categoryId : Option Nat
  installmentNumber : Nat
  totalInstallments : Nat
  purchaseGroupId : String
deriving DecidableEq

/-- A persisted transaction row (`transactionRepo.create`), with the
fields the handler's success message reads back. -/
structure TransactionRow where
  description : String
  from_amount : ℚ
  to_amount : ℚ
  to_currency : String
  date : SimpleDate
  txType : String
deriving DecidableEq

/-- The persistence and id-generation collaborators of the expense
tracker service. -/
structure TrackerEnv where
  findAccountById : Nat → Option Account
  findCategoryById : Nat → Option Category
  findAccountByName : String → Option Account
  findCategoryByName : String → Option Category
  allAccounts : List Account
  freshUuid : String

/-- Observable effects of the expense-message flow: replies sent to the
user, transaction-row creations and installment-row creations. -/
inductive BotEvent where
  | reply (text : String)
  | createTransaction (txType : String)
  | createInstallment
deriving DecidableEq

/-- DTO of `recordCreditCardPurchase`. -/
structure CreateFullCreditCardPurchaseDTO where
  creditCardAccountId : Nat
  date : SimpleDate
  description : String
  totalAmount : ℚ
  currency : String
  categoryId : Option Nat
  totalInstallments : Nat
deriving DecidableEq

/-- The `if (data.categoryId)` guard of `recordCreditCardPurchase`:
when a category id is present (and nonzero — 0 is falsy in JS), it must
resolve. -/
def checkCategory (env : TrackerEnv) (categoryId : Option Nat) : Except String Unit :=
  match categoryId with
  | some cid =>
    if cid ≠ 0 then
      match env.findCategoryById cid with
      | none => Except.error ("Category " ++ toString cid ++ " not found")
      | some _ => Except.ok ()
    else Except.ok ()
  | none => Except.ok ()

/-- The installment rows built by the creation loop of
`recordCreditCardPurchase`: for i = 1..N one row dated
`purchaseDate + (i-1) months`, with amount `totalAmount / N` and the
shared group id. -/
def ccInstallments (purchaseGroupId : String) (data : CreateFullCreditCardPurchaseDTO) :
    List CreditCardPurchase :=
  (List.range data.totalInstallments).map (fun j =>
    { creditCardAccountId := data.creditCardAccountId,
      date := addMonths data.date j,
      description := data.description ++ " (" ++ toString (j + 1) ++ "/"
        ++ toString data.totalInstallments ++ ")",
      amount := data.totalAmount / (data.totalInstallments : ℚ),
      currency := data.currency,
      categoryId := data.categoryId,
      installmentNumber := j + 1,
      totalInstallments := data.totalInstallments,
      purchaseGroupId := purchaseGroupId })

/-- ExpenseTrackerService.recordCreditCardPurchase: validate the credit
card account and the optional category, generate one purchase-group id,
and create one installment row per installment. -/
def recordCreditCardPurchase (env : TrackerEnv) (data : CreateFullCreditCardPurchaseDTO) :
    Except String (List CreditCardPurchase) × List BotEvent :=
  match env.findAccountById data.creditCardAccountId with
  | none =>
    (Except.error ("Credit card account " ++ toString data.creditCardAccountId
      ++ " not found"), [])
  | some acc =>
    if acc.type ≠ "credit_card" then
      (Except.error ("Account " ++ toString data.creditCardAccountId
        ++ " is not a credit card"), [])
    else
      match checkCategory env data.categoryId with
      | Except.error e => (Except.error e, [])
      | Except.ok _ =>
        let purchases := ccInstallments env.freshUuid data
        (Except.ok purchases, purchases.map (fun _ => BotEvent.createInstallment))

/-- C6: for a resolvable credit-card account and category,
`recordCreditCardPurchase` with N >= 1 installments creates exactly N
installment rows, each of amount `totalAmount / N` (one exact division,
no remainder redistribution), the (j+1)-th row dated
`purchaseDate + j months` with installment number j+1, all rows sharing
the one freshly generated purchase-group id. -/
theorem c6_installment_expansion :
    ∀ (env : TrackerEnv) (data : CreateFullCreditCardPurchaseDTO) (acc : Account),
      env.findAccountById data.creditCardAccountId = some acc →
      acc.type = "credit_card" →
      checkCategory env data.categoryId = Except.ok () →
      1 ≤ data.totalInstallments →
      ∃ rows, (recordCreditCardPurchase env data).1 = Except.ok rows ∧
        rows.length = data.totalInstallments ∧
        (∀ r ∈ rows,
          r.amount = data.totalAmount / (data.totalInstallments : ℚ) ∧
          r.purchaseGroupId = env.freshUuid ∧
          r.totalInstallments = data.totalInstallments) ∧
        (∀ j (hj : j < rows.length),
          (rows.get ⟨j, hj⟩).date = addMonths data.date j ∧
          (rows.get ⟨j, hj⟩).installmentNumber = j + 1) := by
  intro env data acc hacc htype hcat _
  refine ⟨ccInstallments env.freshUuid data, ?_, ?_, ?_, ?_⟩
  · simp [recordCreditCardPurchase, hacc, htype, hcat]
  · simp [ccInstallments]
  · intro r hr
    simp only [ccInstallments, List.mem_map, List.mem_range] at hr
    obtain ⟨j, _, rfl⟩ := hr
    exact ⟨rfl, rfl, rfl⟩
  · intro j hj
    have hj' : j < data.totalInstallments := by
      simpa [ccInstallments] using hj
    simp [ccInstallments, List.get_eq_getElem]

/-- The credit-card account of the C6 witness. -/
def c6Card : Account :=
  { id := 7, name := "BBVA Credit Card", currency := "ARS", type := "credit_card" }

/-- A concrete tracker environment holding one credit card. -/
def c6Env : TrackerEnv :=
  { findAccountById := fun i => if i = 7 then some c6Card else none,
    findCategoryById := fun _ => none,
    findAccountByName := fun n => if n = "BBVA Credit Card" then some c6Card else none,
    findCategoryByName := fun _ => none,
    allAccounts := [c6Card],
    freshUuid := "uuid-0001" }

/-- Scenario B of the spec: a 1200 purchase in 12 installments. -/
def c6DTO : CreateFullCreditCardPurchaseDTO :=
  { creditCardAccountId := 7,
    date := { year := 2026, month := 0, day := 15 },
    description := "laptop",
    totalAmount := 1200,
    currency := "USD",
    categoryId := none,
    totalInstallments := 12 }

/-- Witness for C6: the 1200/12 purchase yields 12 rows of amount 100
sharing the generated group id. -/
theorem c6_installment_expansion_witness :
    ∃ rows, (recordCreditCardPurchase c6Env c6DTO).1 = Except.ok rows ∧
      rows.length = 12 ∧
      ∀ r ∈ rows, r.amount = 100 ∧ r.purchaseGroupId = "uuid-0001" := by
  obtain ⟨rows, h1, h2, h3, _⟩ :=
    c6_installment_expansion c6Env c6DTO c6Card rfl rfl rfl (by norm_num [c6DTO])
  refine ⟨rows, h1, h2, fun r hr => ⟨?_, ?_⟩⟩
  · rw [(h3 r hr).1]
    norm_num [c6DTO]
  · exact (h3 r hr).2.1

/-- JavaScript string interpolation of a possibly-undefined value. -/
def showOptStr : Option String → String
  | none => "undefined"
  | some s => s

/-- JS truthiness test on an optional string: `undefined`, `null` and
the empty string are falsy. -/
def strFalsy : Option String → Bool
  | none => true
  | some s => s == ""

/-- ExpenseTrackerService.recordIncome: resolve the account, then one
`transactionRepo.create` of an income row (from/to amount and currency
both set from the income amount and currency). -/
def recordIncome (env : TrackerEnv) (accountId : Nat) (amount : ℚ) (currency : String)
    (date : SimpleDate) (description : String) :
    Except String TransactionRow × List BotEvent :=
  match env.findAccountById accountId with
  | none => (Except.error ("Account " ++ toString accountId ++ " not found"), [])
  | some _ =>
    (Except.ok { description := description, from_amount := amount, to_amount := amount,
                 to_currency := currency, date := date, txType := "income" },
     [BotEvent.createTransaction "income"])

/-- ExpenseTrackerService.recordTransfer: resolve both accounts, then
one `transactionRepo.create` of a transfer row. -/
def recordTransfer (env : TrackerEnv) (fromAccountId toAccountId : Nat)
    (fromAmount toAmount : ℚ) (date : SimpleDate) (description : String) :
    Except String TransactionRow × List BotEvent :=
  match env.findAccountById fromAccountId with
  | none => (Except.error ("From account " ++ toString fromAccountId ++ " not found"), [])
  | some _ =>
    match env.findAccountById toAccountId with
    | none => (Except.error ("To account " ++ toString toAccountId ++ " not found"), [])
    | some toAccount =>
      (Except.ok { description := description, from_amount := fromAmount,
                   to_amount := toAmount, to_currency := toAccount.currency,
                   date := date, txType := "transfer" },
       [BotEvent.createTransaction "transfer"])

/-- ExpenseTrackerService.recordExpense: resolve the account and the
category, then one `transactionRepo.create` of an expense row. -/
def recordExpense (env : TrackerEnv) (accountId categoryId : Nat) (amount : ℚ)
    (date : SimpleDate) (description : String) :
    Except String TransactionRow × List BotEvent :=
  match env.findAccountById accountId with
  | none => (Except.error ("Account " ++ toString accountId ++ " not found"), [])
  | some account =>
    match env.findCategoryById categoryId with
    | none => (Except.error ("Category " ++ toString categoryId ++ " not found"), [])
    | some _ =>
      (Except.ok { description := description, from_amount := amount, to_amount := amount,
                   to_currency := account.currency, date := date, txType := "expense" },
       [BotEvent.createTransaction "expense"])

/-- ExpenseTrackerService.recordCreditCardPayment: resolve both
accounts, require the destination to be a credit card, then one
`transactionRepo.create` of a payment row. -/
def recordCreditCardPayment (env : TrackerEnv) (fromAccountId creditCardAccountId : Nat)
    (amount : ℚ) (date : SimpleDate) (description : String) :
    Except String TransactionRow × List BotEvent :=
  match env.findAccountById fromAccountId with
  | none => (Except.error ("From account " ++ toString fromAccountId ++ " not found"), [])
  | some _ =>
    match env.findAccountById creditCardAccountId with
    | none =>
      (Except.error ("Credit card account " ++ toString creditCardAccountId
        ++ " not found"), [])
    | some creditCardAccount =>
      if creditCardAccount.type ≠ "credit_card" then
        (Except.error ("Account " ++ toString creditCardAccountId
          ++ " is not a credit card"), [])
      else
        (Except.ok { description := description, from_amount := amount, to_amount := amount,
                     to_currency := creditCardAccount.currency, date := date,
                     txType := "credit_card_payment" },
         [BotEvent.createTransaction "credit_card_payment"])

/-- A schema-validated expense-parser result (`ExpenseParserSchema`);
the `YYYY-MM-DD` date string of the schema appears here already
converted to a date, and the schema default makes `installments` 1 when
absent. -/
structure ExpenseParserResult where
  type : String
  description : String
  amount : ℚ
  fromAccount : Option String
  toAccount : Option String
  category : Option String
  currency : String
  date : SimpleDate
  installments : Nat
  fromAmount : Option ℚ
  toAmount : Option ℚ
  confidence : ℚ
deriving DecidableEq

/-- `findAccountByName(name)` where `name` may be undefined (an
undefined name matches no account). -/
def lookupAccount (env : TrackerEnv) (name : Option String) : Option Account :=
  match name with
  | none => none
  | some n => env.findAccountByName n

/-- `findCategoryByName(name)` where `name` may be undefined. -/
def lookupCategory (env : TrackerEnv) (name : Option String) : Option Category :=
  match name with
  | none => none
  | some n => env.findCategoryByName n

/-- `parsed.category ? await findCategoryByName(parsed.category) : null`:
the lookup is only issued for a truthy category name. -/
def lookupCategoryTruthy (env : TrackerEnv) (name : Option String) : Option Category :=
  match name with
  | none => none
  | some n => if n == "" then none else env.findCategoryByName n

/-- handleIncome from the expense handler: resolve the destination
account by name, then record the income. -/
def handleIncome (env : TrackerEnv) (p : ExpenseParserResult) :
    Except String TransactionRow × List BotEvent :=
  match lookupAccount env p.toAccount with
  | none => (Except.error ("Account not found: " ++ showOptStr p.toAccount), [])
  | some account =>
    recordIncome env account.id p.amount p.currency p.date p.description

/-- handleTransfer: resolve both accounts by name; a single provided
amount is used for both sides (`fromAmount \x7c\x7c amount`,
`toAmount \x7c\x7c amount`; parsed amounts are positive, hence truthy). -/
def handleTransfer (env : TrackerEnv) (p : ExpenseParserResult) :
    Except String TransactionRow × List BotEvent :=
  match lookupAccount env p.fromAccount with
  | none => (Except.error ("From account not found: " ++ showOptStr p.fromAccount), [])
  | some fromAccount =>
    match lookupAccount env p.toAccount with
    | none => (Except.error ("To account not found: " ++ showOptStr p.toAccount), [])
    | some toAccount =>
      recordTransfer env fromAccount.id toAccount.id
        (p.fromAmount.getD p.amount) (p.toAmount.getD p.amount) p.date p.description

/-- handleExpense: resolve the source account and the category by
name, then record the expense. -/
def handleExpense (env : TrackerEnv) (p : ExpenseParserResult) :
    Except String TransactionRow × List BotEvent :=
  match lookupAccount env p.fromAccount with
  | none => (Except.error ("Account not found: " ++ showOptStr p.fromAccount), [])
  | some account =>
    match lookupCategory env p.category with
    | none => (Except.error ("Category not found: " ++ showOptStr p.category), [])
    | some category =>
      recordExpense env account.id category.id p.amount p.date p.description

/-- handleCreditCardPayment: resolve the paying account and the credit
card by name, then record the payment. -/
def handleCreditCardPayment (env : TrackerEnv) (p : ExpenseParserResult) :
    Except String TransactionRow × List BotEvent :=
  match lookupAccount env p.fromAccount with
  | none => (Except.error ("From account not found: " ++ showOptStr p.fromAccount), [])
  | some fromAccount =>
    match lookupAccount env p.toAccount with
    | none => (Except.error ("Credit card not found: " ++ showOptStr p.toAccount), [])
    | some creditCard =>
      recordCreditCardPayment env fromAccount.id creditCard.id p.amount p.date p.description

/-- `parsed.toAccount \x7c\x7c \x27BBVA Credit Card\x27`: the default
credit-card name when the parser supplied none (or a falsy one). -/
def ccPurchaseName (p : ExpenseParserResult) : String :=
  match p.toAccount with
  | none => "BBVA Credit Card"
  | some s => if s == "" then "BBVA Credit Card" else s

/-- handleCreditCardPurchase: resolve the credit card by name (with the
default), resolve the optional category (a missing category is not an
error here), and record the purchase with
`totalInstallments = parsed.installments \x7c\x7c 1`. -/
def handleCreditCardPurchase (env : TrackerEnv) (p : ExpenseParserResult) :
    Except String (List CreditCardPurchase) × List BotEvent :=
  match env.findAccountByName (ccPurchaseName p) with
  | none => (Except.error "Credit card not found", [])
  | some creditCard =>
    recordCreditCardPurchase env
      { creditCardAccountId := creditCard.id,
        date := p.date,
        description := p.description,
        totalAmount := p.amount,
        currency := p.currency,
        categoryId := (lookupCategoryTruthy env p.category).map (fun c => c.id),
        totalInstallments := if p.installments = 0 then 1 else p.installments }

/-- The `switch (parsed.type)` of the expense handler: a fixed, total
dispatch over the five transaction types; an unrecognized type is a
fatal error for the message. -/
def dispatchTransaction (env : TrackerEnv) (p : ExpenseParserResult) :
    Except String (TransactionRow ⊕ List CreditCardPurchase) × List BotEvent :=
  if p.type = "income" then
    ((handleIncome env p).1.map Sum.inl, (handleIncome env p).2)
  else if p.type = "transfer" then
    ((handleTransfer env p).1.map Sum.inl, (handleTransfer env p).2)
  else if p.type = "expense" then
    ((handleExpense env p).1.map Sum.inl, (handleExpense env p).2)
  else if p.type = "credit_card_payment" then
    ((handleCreditCardPayment env p).1.map Sum.inl, (handleCreditCardPayment env p).2)
  else if p.type = "credit_card_purchase" then
    ((handleCreditCardPurchase env p).1.map Sum.inr, (handleCreditCardPurchase env p).2)
  else (Except.error ("Unknown transaction type: " ++ p.type), [])

/-- Rendering of `toLocaleDateString` (layout irrelevant to the flow). -/
def showDate (d : SimpleDate) : String :=
  toString d.year ++ "-" ++ toString (d.month + 1) ++ "-" ++ toString d.day

/-- formatSuccessMessage: the success reply, with the icon/emoji
decoration dropped as a rendering detail. -/
def formatSuccessMessage (result : TransactionRow ⊕ List CreditCardPurchase) : String :=
  match result with
  | Sum.inr [] => "Credit card purchase recorded!"
  | Sum.inr (first :: rest) =>
    "Credit card purchase recorded!\n\n" ++ first.description ++ "\n"
      ++ toString first.amount ++ " " ++ first.currency ++ " x "
      ++ toString (rest.length + 1) ++ " installments\nStarting " ++ showDate first.date
  | Sum.inl row =>
    "Transaction recorded!\n\n" ++ row.description ++ "\n"
      ++ toString row.to_amount ++ " " ++ row.to_currency ++ "\n" ++ showDate row.date

/-- The reply of the inner extraction catch. -/
def parseFailReply : String :=
  "Could not understand the transaction format. Please try again with more details."

/-- The low-confidence clarification reply. -/
def lowConfidenceReply (confidence : ℚ) : String :=
  "I am not confident about this transaction (" ++ toString confidence
    ++ "% confidence). Can you provide more details?"

/-- The account-selection reply of the interactive validation branch. -/
def accountSelectionReply (p : ExpenseParserResult) : String :=
  "I see you spent " ++ toString p.amount ++ " " ++ p.currency ++ " on \""
    ++ p.description ++ "\".\nWhich account did you use?"

/-- The reply of the outer catch. -/
def errorReply (msg : String) : String :=
  "Error processing transaction: " ++ msg

/-- Environment of one inbound expense message: the message text, the
`expense-parser` prompt resolution, the structured extraction outcome,
and the persistence collaborators. -/
structure BotEnv where
  messageText : Option String
  promptFetch : Except String PMResult
  extract : Except String ExpenseParserResult
  tracker : TrackerEnv

/-- handleExpenseMessage: return early on a missing text; a failing
prompt fetch is caught by the outer catch (error reply); a failing
extraction gets the dedicated parse-failure reply; a confidence below
50 gets the clarification reply and does not reach persistence; an
expense without a (truthy) source account triggers the interactive
account-selection branch when accounts exist; otherwise the transaction
is dispatched by type, a persistence failure is caught by the outer
catch, and success is confirmed to the user. -/
def handleExpenseMessage (env : BotEnv) : List BotEvent :=
  match env.messageText with
  | none => []
  | some _ =>
    match env.promptFetch with
    | Except.error e => [BotEvent.reply (errorReply e)]
    | Except.ok _ =>
      match env.extract with
      | Except.error _ => [BotEvent.reply parseFailReply]
      | Except.ok parsed =>
        if parsed.confidence < 50 then
          [BotEvent.reply (lowConfidenceReply parsed.confidence)]
        else if parsed.type = "expense" ∧ strFalsy parsed.fromAccount = true
            ∧ env.tracker.allAccounts ≠ [] then
          [BotEvent.reply (accountSelectionReply parsed)]
        else
          match dispatchTransaction env.tracker parsed with
          | (Except.error e, evs) => evs ++ [BotEvent.reply (errorReply e)]
          | (Except.ok result, evs) =>
            evs ++ [BotEvent.reply (formatSuccessMessage result)]

/-- The number of persistence operations (transaction-row or
installment-row creations) in a trace. -/
def persistCount (evs : List BotEvent) : Nat :=
  evs.countP (fun e => match e with
    | BotEvent.createTransaction _ => true
    | BotEvent.createInstallment => true
    | BotEvent.reply _ => false)

/-- All account/category references required by the parsed transaction
resolve (by name in the handler and again by id inside the service),
with the type constraints the service checks. -/
def refsResolved (env : TrackerEnv) (p : ExpenseParserResult) : Prop :=
  if p.type = "income" then
    ∃ acc, lookupAccount env p.toAccount = some acc ∧ env.findAccountById acc.id = some acc
  else if p.type = "transfer" then
    ∃ a b, lookupAccount env p.fromAccount = some a ∧ lookupAccount env p.toAccount = some b
      ∧ env.findAccountById a.id = some a ∧ env.findAccountById b.id = some b
  else if p.type = "expense" then
    strFalsy p.fromAccount = false ∧
    ∃ acc cat, lookupAccount env p.fromAccount = some acc
      ∧ lookupCategory env p.category = some cat
      ∧ env.findAccountById acc.id = some acc ∧ env.findCategoryById cat.id = some cat
  else if p.type = "credit_card_payment" then
    ∃ a cc, lookupAccount env p.fromAccount = some a ∧ lookupAccount env p.toAccount = some cc
      ∧ env.findAccountById a.id = some a ∧ env.findAccountById cc.id = some cc
      ∧ cc.type = "credit_card"
  else if p.type = "credit_card_purchase" then
    ∃ cc, env.findAccountByName (ccPurchaseName p) = some cc
      ∧ env.findAccountById cc.id = some cc ∧ cc.type = "credit_card"
      ∧ checkCategory env ((lookupCategoryTruthy env p.category).map (fun c => c.id))
          = Except.ok ()
  else False

theorem ccInstallments_length (gid : String) (data : CreateFullCreditCardPurchaseDTO) :
    (ccInstallments gid data).length = data.totalInstallments := by
  simp [ccInstallments]

/-- C5: with the message present, the prompt resolved and the parser
successful, a parsed transaction with confidence below 50 produces only
the clarification reply and no persistence call; with confidence at
least 50 and every required account/category reference resolved, the
flow performs exactly one persistence operation — or N installment-row
creations (`installments`, defaulted to 1 when 0) for a credit-card
purchase. -/
theorem c5_confidence_gate_and_persistence :
    ∀ (env : BotEnv) (m : String) (pd : PMResult) (parsed : ExpenseParserResult),
      env.messageText = some m →
      env.promptFetch = Except.ok pd →
      env.extract = Except.ok parsed →
      ((parsed.confidence < 50 →
          handleExpenseMessage env
            = [BotEvent.reply (lowConfidenceReply parsed.confidence)] ∧
          persistCount (handleExpenseMessage env) = 0) ∧
       (50 ≤ parsed.confidence → refsResolved env.tracker parsed →
          persistCount (handleExpenseMessage env)
            = (if parsed.type = "credit_card_purchase"
               then (if parsed.installments = 0 then 1 else parsed.installments)
               else 1))) := by
  intro env m pd parsed hm hpf hex
  have hmsg : handleExpenseMessage env =
      (if parsed.confidence < 50 then
        [BotEvent.reply (lowConfidenceReply parsed.confidence)]
      else if parsed.type = "expense" ∧ strFalsy parsed.fromAccount = true
          ∧ env.tracker.allAccounts ≠ [] then
        [BotEvent.reply (accountSelectionReply parsed)]
      else
        match dispatchTransaction env.tracker parsed with
        | (Except.error e, evs) => evs ++ [BotEvent.reply (errorReply e)]
        | (Except.ok result, evs) =>
          evs ++ [BotEvent.reply (formatSuccessMessage result)]) := by
    simp [handleExpenseMessage, hm, hpf, hex]
  constructor
  · intro hconf
    rw [hmsg, if_pos hconf]
    exact ⟨rfl, rfl⟩
  · intro hconf hrefs
    have hnc : ¬ parsed.confidence < 50 := not_lt.mpr hconf
    rw [hmsg, if_neg hnc]
    unfold refsResolved at hrefs
    by_cases ht1 : parsed.type = "income"
    · rw [if_pos ht1] at hrefs
      obtain ⟨acc, hname, hid⟩ := hrefs
      have hskip : ¬(parsed.type = "expense" ∧ strFalsy parsed.fromAccount = true
          ∧ env.tracker.allAccounts ≠ []) := by
        rintro ⟨hexp, -, -⟩
        rw [ht1] at hexp
        exact absurd hexp (by decide)
      rw [if_neg hskip]
      simp [dispatchTransaction, ht1, handleIncome, hname, recordIncome, hid, persistCount,
        Except.map]
    · rw [if_neg ht1] at hrefs
      by_cases ht2 : parsed.type = "transfer"
      · rw [if_pos ht2] at hrefs
        obtain ⟨a, b, hfa, hta, hia, hib⟩ := hrefs
        have hskip : ¬(parsed.type = "expense" ∧ strFalsy parsed.fromAccount = true
            ∧ env.tracker.allAccounts ≠ []) := by
          rintro ⟨hexp, -, -⟩
          rw [ht2] at hexp
          exact absurd hexp (by decide)
        rw [if_neg hskip]
        simp [dispatchTransaction, ht2, handleTransfer, hfa, hta, recordTransfer,
          hia, hib, persistCount, Except.map]
      · rw [if_neg ht2] at hrefs
        by_cases ht3 : parsed.type = "expense"
        · rw [if_pos ht3] at hrefs
          obtain ⟨hfalsy, acc, cat, hname, hcat, hid, hcid⟩ := hrefs
          have hskip : ¬(parsed.type = "expense" ∧ strFalsy parsed.fromAccount = true
              ∧ env.tracker.allAccounts ≠ []) := by
            rintro ⟨-, hf, -⟩
            rw [hfalsy] at hf
            exact absurd hf (by decide)
          rw [if_neg hskip]
          simp [dispatchTransaction, ht3, handleExpense, hname, hcat, recordExpense,
            hid, hcid, persistCount, Except.map]
        · rw [if_neg ht3] at hrefs
          have hskip : ¬(parsed.type = "expense" ∧ strFalsy parsed.fromAccount = true
              ∧ env.tracker.allAccounts ≠ []) := by
            rintro ⟨hexp, -, -⟩
            exact ht3 hexp
          rw [if_neg hskip]
          by_cases ht4 : parsed.type = "credit_card_payment"
          · rw [if_pos ht4] at hrefs
            obtain ⟨a, cc, hfa, hta, hia, hicc, hcc⟩ := hrefs
            simp [dispatchTransaction, ht4, handleCreditCardPayment, hfa, hta,
              recordCreditCardPayment, hia, hicc, hcc, persistCount, Except.map]
          · rw [if_neg ht4] at hrefs
            by_cases ht5 : parsed.type = "credit_card_purchase"
            · rw [if_pos ht5] at hrefs
              obtain ⟨cc, hname, hid, hcc, hcat⟩ := hrefs
              simp [dispatchTransaction, ht5, handleCreditCardPurchase, hname,
                recordCreditCardPurchase, hid, hcc, hcat, persistCount,
                List.countP_append, List.countP_map, ccInstallments_length,
                Function.comp, Except.map, List.countP_replicate]
            · rw [if_neg ht5] at hrefs
              exact hrefs.elim

/-- A parsed low-confidence expense. -/
def lowConfParsed : ExpenseParserResult :=
  { type := "expense", description := "groceries", amount := 50,
    fromAccount := some "Cash", toAccount := none, category := some "Food",
    currency := "USD", date := { year := 2026, month := 9, day := 12 },
    installments := 1, fromAmount := none, toAmount := none, confidence := 30 }

/-- A concrete bot environment whose parser yields the low-confidence
expense. -/
def c5Env : BotEnv :=
  { messageText := some "spent something somewhere?",
    promptFetch := Except.ok { prompt := "parse the transaction", config := none },
    extract := Except.ok lowConfParsed,
    tracker := c6Env }

/-- Witness for C5: a 30 percent confidence transaction only asks for
clarification; no persistence operation is invoked. -/
theorem c5_confidence_gate_and_persistence_witness :
    handleExpenseMessage c5Env
      = [BotEvent.reply (lowConfidenceReply 30)] ∧
    persistCount (handleExpenseMessage c5Env) = 0 :=
  (c5_confidence_gate_and_persistence c5Env "spent something somewhere?"
      { prompt := "parse the transaction", config := none } lowConfParsed
      rfl rfl rfl).1 (by norm_num [lowConfParsed])
